import Mathlib

/-!
Shallow embedding of the realtime session-synchronization core of the
OpenReplica frontend:

* `src/frontend/src/store/sessionStore.ts` — the Zustand conversation
  state store (sessions, conversations, messages, agent status, the
  transient streaming buffer) and its named mutation operations.
* the `useWebSocket` hook — the Connection Manager (connect /
  disconnect / reconnect backoff) and the Event Dispatcher
  (`handleMessage`).

JS machine state that the hook keeps in refs (`wsRef`,
`reconnectTimeoutRef`, `reconnectAttemptsRef`) is made explicit in a
`SystemState` record; transport/timer callbacks become explicit events
applied to that record.  Strings stay strings, JS truthiness of an
optional string field is modelled by `truthyStr`.  The fresh values the
dispatcher draws from the environment (`crypto.randomUUID()`,
`new Date().toISOString()`) are passed in as a `Fresh` record.
-/

namespace OpenReplica

/-- JS truthiness of an optional string field (`undefined`/`null`/`""`
are falsy). -/
def truthyStr : Option String → Bool
  | some s => s ≠ ""
  | none => false

/-- `agentStatus` values of the session store. -/
inductive AgentStatus
  | idle
  | thinking
  | responding
  | executing
  | error
deriving DecidableEq, Repr

/-- `Message.role` in `sessionStore.ts`. -/
inductive Role
  | user
  | assistant
  | system
deriving DecidableEq, Repr

/-- `Message.message_type` in `sessionStore.ts`. -/
inductive MessageType
  | text
  | code
  | image
  | file
deriving DecidableEq, Repr

/-- `Session.status` in `sessionStore.ts`. -/
inductive SessionStatus
  | active
  | paused
  | completed
  | error
deriving DecidableEq, Repr

/-- `Conversation.status` in `sessionStore.ts`. -/
inductive ConversationStatus
  | active
  | completed
  | error
deriving DecidableEq, Repr

/-- The `Session` interface of `sessionStore.ts`.  `Record<string, any>`
metadata is modelled as an association list of strings. -/
structure Session where
  id : String
  title : String
  description : Option String := none
  status : SessionStatus
  llm_provider : String
  llm_model : String
  temperature : String
  max_tokens : Nat
  workspace_path : Option String := none
  git_repo : Option String := none
  branch : String
  metadata : List (String × String) := []
  created_at : String
  updated_at : String
deriving DecidableEq, Repr

/-- The `Message` interface of `sessionStore.ts`. -/
structure Message where
  id : String
  conversation_id : String
  role : Role
  content : String
  message_type : MessageType
  tokens_used : Nat
  execution_time : Option String := none
  metadata : List (String × String) := []
  created_at : String
  updated_at : String
deriving DecidableEq, Repr

/-- The `Conversation` interface of `sessionStore.ts`. -/
structure Conversation where
  id : String
  session_id : String
  title : String
  status : ConversationStatus
  agent_type : String
  agent_config : List (String × String) := []
  metadata : List (String × String) := []
  messages : List Message
  created_at : String
  updated_at : String
deriving DecidableEq, Repr

/-- The slice of the Zustand `SessionState` that the synchronization
core reads and writes.  `conversations : Record<string, Conversation[]>`
is an association list keyed by session id (JS string-keyed objects
iterate in insertion order); `wsConnection : WebSocket | null` is
modelled by the numeric id of the transport object it points at. -/
structure SessionStore where
  currentSession : Option Session := none
  sessions : List Session := []
  currentConversation : Option Conversation := none
  conversations : List (String × List Conversation) := []
  isLoading : Bool := false
  wsConnection : Option Nat := none
  agentStatus : AgentStatus := .idle
  currentResponse : String := ""
deriving DecidableEq, Repr

/-- `setAgentStatus` of `sessionStore.ts`. -/
def setAgentStatus (s : AgentStatus) (st : SessionStore) : SessionStore :=
  { st with agentStatus := s }

/-- `setWsConnection` of `sessionStore.ts`. -/
def setWsConnection (w : Option Nat) (st : SessionStore) : SessionStore :=
  { st with wsConnection := w }

/-- `setCurrentResponse` of `sessionStore.ts`. -/
def setCurrentResponse (r : String) (st : SessionStore) : SessionStore :=
  { st with currentResponse := r }

/-- `addToCurrentResponse` of `sessionStore.ts`: appends a chunk to the
transient streaming buffer. -/
def addToCurrentResponse (chunk : String) (st : SessionStore) : SessionStore :=
  { st with currentResponse := st.currentResponse ++ chunk }

/-- `clearCurrentResponse` of `sessionStore.ts`. -/
def clearCurrentResponse (st : SessionStore) : SessionStore :=
  { st with currentResponse := "" }

/-- `addMessage` of `sessionStore.ts`: for every session key, append the
message to each conversation whose id equals `message.conversation_id`;
update the `currentConversation` pointer the same way when it matches. -/
def addMessage (message : Message) (st : SessionStore) : SessionStore :=
  { st with
    conversations := st.conversations.map fun p =>
      (p.1, p.2.map fun c =>
        if c.id = message.conversation_id then
          { c with messages := c.messages ++ [message] }
        else c)
    currentConversation :=
      match st.currentConversation with
      | some cc =>
          if cc.id = message.conversation_id then
            some { cc with messages := cc.messages ++ [message] }
          else some cc
      | none => none }

/-- The `WebSocketMessage` interface of the `useWebSocket` hook.  Only
the fields the dispatcher reads into the store are modelled; the extra
index-signature fields (`success`, `action`, `filepath`, `error`,
`message`) feed toast notices only and never reach the store, so the one
the dispatcher branches on (`success`) is kept and the purely textual
ones are omitted. -/
structure WSMessage where
  type : String
  content : Option String := none
  session_id : Option String := none
  conversation_id : Option String := none
  full_response : Option String := none
  timestamp : Option Nat := none
  success : Option Bool := none
deriving DecidableEq, Repr

/-- The values the dispatcher draws from the environment when it
finalizes a message: `crypto.randomUUID()` and
`new Date().toISOString()`. -/
structure Fresh where
  newId : String
  now : String
deriving DecidableEq, Repr

/-- The assistant `Message` literal built in the `agent_response_end`
branch of `handleMessage` (only reached when `full_response` is
truthy). -/
def assistantMessageOf (fresh : Fresh) (m : WSMessage) : Message :=
  { id := fresh.newId
    conversation_id := m.conversation_id.getD ""
    role := .assistant
    content := m.full_response.getD ""
    message_type := .text
    tokens_used := 0
    execution_time := none
    metadata := []
    created_at := fresh.now
    updated_at := fresh.now }

/-- `handleMessage` of the `useWebSocket` hook: the Event Dispatcher's
switch on `message.type`, restricted to its effect on the session
store.  Branches that only emit toast notices (`code_execution`,
`code_result`, `file_change`, `agent_error`, `error`) keep exactly their
store effect; `pong` and unrecognized types touch nothing. -/
def handleMessage (fresh : Fresh) (st : SessionStore) (m : WSMessage) : SessionStore :=
  if m.type = "pong" then
    st
  else if m.type = "agent_response_start" then
    clearCurrentResponse (setAgentStatus .responding st)
  else if m.type = "agent_response_chunk" then
    if truthyStr m.content then addToCurrentResponse (m.content.getD "") st else st
  else if m.type = "agent_response_end" then
    let st1 := setAgentStatus .idle st
    let st2 :=
      if truthyStr m.full_response then addMessage (assistantMessageOf fresh m) st1
      else st1
    clearCurrentResponse st2
  else if m.type = "code_execution" then
    setAgentStatus .executing st
  else if m.type = "code_result" then
    setAgentStatus .idle st
  else if m.type = "file_change" then
    st
  else if m.type = "agent_error" then
    setAgentStatus .error st
  else if m.type = "error" then
    st
  else
    st

/-- An inbound transport frame as seen by the `onmessage` handler:
either it parses into a `WSMessage`, or `JSON.parse` throws and the
frame is malformed. -/
inductive Inbound
  | malformed
  | frame (m : WSMessage)
deriving DecidableEq, Repr

/-- The `onmessage` handler: a malformed frame is caught, logged and
dropped; a parsed frame goes to `handleMessage`. -/
def onMessageEvent (fresh : Fresh) (st : SessionStore) (e : Inbound) : SessionStore :=
  match e with
  | .malformed => st
  | .frame m => handleMessage fresh st m

/-- Processing a sequence of inbound frames in arrival order, each with
the fresh environment values drawn while handling it. -/
def processAll (st : SessionStore) (l : List (Fresh × Inbound)) : SessionStore :=
  l.foldl (fun s p => onMessageEvent p.1 s p.2) st

/-- A WebSocket object created by `connect`: its identity, whether it
has been closed, and the closure code it was closed with. -/
structure Transport where
  id : Nat
  closed : Bool := false
  closeCode : Option Nat := none
deriving DecidableEq, Repr

/-- `maxReconnectAttempts` of the `useWebSocket` hook. -/
def maxReconnectAttempts : Nat := 5

/-- The whole machine state of one `useWebSocket` hook instance:
the ref cells of the hook (`wsRef`, `reconnectTimeoutRef` as the delay
of the pending timer it tracks, `reconnectAttemptsRef`), every transport
constructed so far, the `isConnected` flag of the app store
(`setConnectionStatus`), and the session store. -/
structure SystemState where
  sessionId : Option String := none
  transports : List Transport := []
  wsRef : Option Nat := none
  reconnectTimer : Option Nat := none
  attempts : Nat := 0
  nextId : Nat := 0
  connectionStatus : Bool := false
  store : SessionStore := {}
deriving DecidableEq, Repr

/-- `connect` of the `useWebSocket` hook.  `ctorOk = false` models
`new WebSocket(url)` throwing: the catch block logs and sets the
connection status to false, nothing else.  On success a fresh transport
is constructed and `wsRef.current` is repointed at it — the previous
transport, if any, is not closed. -/
def connect (ctorOk : Bool) (st : SystemState) : SystemState :=
  match st.sessionId with
  | none => st
  | some _ =>
    if ctorOk then
      { st with
        transports := st.transports ++ [{ id := st.nextId }]
        wsRef := some st.nextId
        nextId := st.nextId + 1 }
    else
      { st with connectionStatus := false }

/-- The `onopen` handler: connection status true, store's
`wsConnection` repointed at the current transport, attempt counter reset
to 0 (the ping it then sends has no store effect). -/
def onOpen (st : SystemState) : SystemState :=
  { st with
    connectionStatus := true
    store := setWsConnection st.wsRef st.store
    attempts := 0 }

/-- Mark the transport with id `tid` as closed with the given code. -/
def markClosed (tid code : Nat) (ts : List Transport) : List Transport :=
  ts.map fun t =>
    if t.id = tid then { t with closed := true, closeCode := some code } else t

/-- The `onclose` handler, fired when the transport with id `tid`
closes with `code`: connection status false, `wsConnection` null, agent
status forced to idle; then, iff the closure is non-graceful
(`code ≠ 1000`) and the attempt counter is below the ceiling, a
reconnect timer is scheduled with delay
`min (1000 * 2 ^ attempts) 30000`. -/
def closeEvent (tid code : Nat) (st : SystemState) : SystemState :=
  { st with
    transports := markClosed tid code st.transports
    connectionStatus := false
    store := setAgentStatus .idle (setWsConnection none st.store)
    reconnectTimer :=
      if code ≠ 1000 ∧ st.attempts < maxReconnectAttempts then
        some (min (1000 * 2 ^ st.attempts) 30000)
      else st.reconnectTimer }

/-- The scheduled reconnect timer firing: the attempt counter is
incremented and `connect` runs again; with no pending timer nothing
happens. -/
def timerFire (ctorOk : Bool) (st : SystemState) : SystemState :=
  match st.reconnectTimer with
  | some _ =>
      connect ctorOk { st with reconnectTimer := none, attempts := st.attempts + 1 }
  | none => st

/-- `disconnect` of the `useWebSocket` hook: clear the pending
reconnect timer, ask the current transport to close with the graceful
code 1000, set connection status false and null the store's
`wsConnection`.  The transport's own `onclose` (with code 1000) fires
afterwards as a separate `closeEvent`. -/
def disconnect (st : SystemState) : SystemState :=
  let st1 := { st with reconnectTimer := none }
  let st2 :=
    match st1.wsRef with
    | some tid => { st1 with transports := markClosed tid 1000 st1.transports }
    | none => st1
  { st2 with
    connectionStatus := false
    store := setWsConnection none st2.store }

/-- Number of constructed transports not yet closed. -/
def openTransportCount (st : SystemState) : Nat :=
  (st.transports.filter fun t => !t.closed).length

/-- The `type` strings that `handleMessage` has a case for. -/
def recognizedTypes : List String :=
  ["pong", "agent_response_start", "agent_response_chunk", "agent_response_end",
   "code_execution", "code_result", "file_change", "agent_error", "error"]

/-- The agent status a frame dictates, read off the dispatch table of
`handleMessage`: `agent_response_start ↦ responding`,
`agent_response_end ↦ idle`, `code_execution ↦ executing`,
`code_result ↦ idle`, `agent_error ↦ error`; every other frame (pong,
chunk, file_change, error, unrecognized, malformed) dictates none. -/
def frameStatus : Inbound → Option AgentStatus
  | .malformed => none
  | .frame m =>
    if m.type = "agent_response_start" then some .responding
    else if m.type = "agent_response_end" then some .idle
    else if m.type = "code_execution" then some .executing
    else if m.type = "code_result" then some .idle
    else if m.type = "agent_error" then some .error
    else none

/-- Frames the dispatcher must treat as complete no-ops on the store:
malformed frames, `pong`, and frames with an unrecognized `type`. -/
def isNeutralFrame : Inbound → Bool
  | .malformed => true
  | .frame m => decide (m.type = "pong" ∨ m.type ∉ recognizedTypes)

/-- Frames carrying a streaming content chunk. -/
def isChunkFrame : Inbound → Bool
  | .malformed => false
  | .frame m => decide (m.type = "agent_response_chunk")

/-- The status dictated by the last state-transitioning frame of a
sequence, `none` when the sequence has no such frame. -/
def lastDictatedStatus (l : List (Fresh × Inbound)) : Option AgentStatus :=
  l.foldl (fun o p => (frameStatus p.2).elim o some) none

/-- Total number of messages stored across all conversation lists. -/
def msgCountAll (st : SessionStore) : Nat :=
  (st.conversations.map fun p => (p.2.map fun c => c.messages.length).sum).sum

/-- Concrete fixture: an empty conversation `c1` of session `s1`. -/
def convW : Conversation :=
  { id := "c1", session_id := "s1", title := "t", status := .active,
    agent_type := "codeact", messages := [], created_at := "0", updated_at := "0" }

/-- Concrete fixture: a store holding conversation `c1` under session
`s1`, with the current-conversation pointer on it. -/
def storeW : SessionStore :=
  { currentConversation := some convW
    conversations := [("s1", [convW])] }

/-- Concrete fixture for the environment-drawn values. -/
def freshW : Fresh := { newId := "m1", now := "now" }

/-- Concrete fixture: a chunk frame. -/
def chunkFrame (s : String) : Inbound :=
  .frame { type := "agent_response_chunk", content := some s }

/-- Concrete fixture: an `agent_response_start` frame. -/
def startFrame : Inbound := .frame { type := "agent_response_start" }

/-- Concrete fixture: an `agent_response_end` frame addressed to `c1`
with no `full_response` field. -/
def endFrameNoOverride : Inbound :=
  .frame { type := "agent_response_end", conversation_id := some "c1" }

/-- Concrete fixture: an `agent_response_end` frame addressed to `c1`
carrying the empty string as `full_response`. -/
def endFrameEmptyOverride : Inbound :=
  .frame { type := "agent_response_end", conversation_id := some "c1",
           full_response := some "" }

/-- Concrete fixture: the spec's streaming round-trip sequence — start,
chunks `"Hel"`, `"lo, "`, `"world"`, then end with no override. -/
def seqNoOverride : List (Fresh × Inbound) :=
  [(freshW, startFrame), (freshW, chunkFrame "Hel"), (freshW, chunkFrame "lo, "),
   (freshW, chunkFrame "world"), (freshW, endFrameNoOverride)]

/-- Concrete fixture: the same chunks but the end frame carries an
empty-string override. -/
def seqEmptyOverride : List (Fresh × Inbound) :=
  [(freshW, startFrame), (freshW, chunkFrame "Hel"), (freshW, chunkFrame "lo, "),
   (freshW, chunkFrame "world"), (freshW, endFrameEmptyOverride)]

/-- Concrete fixture: a hook state for session `s1`, nothing connected
yet. -/
def sysW : SystemState := { sessionId := some "s1" }

/-- Concrete fixture: a user message addressed to conversation `c1`. -/
def msgW : Message :=
  { id := "u1", conversation_id := "c1", role := .user, content := "hi",
    message_type := .text, tokens_used := 0, created_at := "1", updated_at := "1" }

/-- Concrete fixture: a pong frame. -/
def pongFrame : Inbound := .frame { type := "pong" }

/-- Concrete fixture: the chunk frames `"Hel"`, `"lo, "`, `"world"`. -/
def chunkList : List (Fresh × Inbound) :=
  [(freshW, chunkFrame "Hel"), (freshW, chunkFrame "lo, "), (freshW, chunkFrame "world")]

/-- Concrete fixture: the end frame of `endFrameNoOverride`, as a raw
`WSMessage`. -/
def endMsgNoOverride : WSMessage :=
  { type := "agent_response_end", conversation_id := some "c1" }

/-- Concrete fixture: an end frame addressed to `c1` carrying
`full_response := "Goodbye"`. -/
def endMsgOverride : WSMessage :=
  { type := "agent_response_end", conversation_id := some "c1",
    full_response := some "Goodbye" }

/-- Concrete fixture: an end frame with a payload but no
`conversation_id`. -/
def endMsgUnrouted : WSMessage :=
  { type := "agent_response_end", full_response := some "Hello" }

/-! ## Helper lemmas -/

/-- A list is `Forall₂`-related to its image under `f` whenever `R a (f a)`
holds on its members. -/
theorem forall2_self_map {α β : Type} (f : α → β) (R : α → β → Prop)
    (l : List α) (h : ∀ a ∈ l, R a (f a)) : List.Forall₂ R l (l.map f) := by
  induction l with
  | nil => exact List.Forall₂.nil
  | cons x l ih =>
      exact List.Forall₂.cons (h x (by simp)) (ih fun a ha => h a (by simp [ha]))

/-- Mapping a function that fixes every member is the identity. -/
theorem map_eq_self_of {α : Type} (f : α → α) (l : List α)
    (h : ∀ a ∈ l, f a = a) : l.map f = l := by
  induction l with
  | nil => rfl
  | cons x l ih =>
      simp only [List.map_cons, h x (by simp), ih fun a ha => h a (by simp [ha])]

/-- One dispatcher step changes the agent status exactly as the frame's
dictated status says (no change when it dictates none). -/
theorem onMessageEvent_agentStatus (fresh : Fresh) (st : SessionStore) (e : Inbound) :
    (onMessageEvent fresh st e).agentStatus = (frameStatus e).getD st.agentStatus := by
  cases e with
  | malformed => rfl
  | frame m =>
    simp only [onMessageEvent, handleMessage, frameStatus]
    split_ifs <;>
      simp_all [setAgentStatus, clearCurrentResponse, addToCurrentResponse, addMessage]

/-- Bridging the running-status fold and the optional last-dictated-status
fold. -/
theorem foldl_status_bridge (l : List (Fresh × Inbound)) :
    ∀ (o : Option AgentStatus) (a : AgentStatus),
      l.foldl (fun x p => (frameStatus p.2).getD x) (o.getD a) =
        (l.foldl (fun x p => (frameStatus p.2).elim x some) o).getD a := by
  induction l with
  | nil => intro o a; rfl
  | cons p l ih =>
    intro o a
    simp only [List.foldl_cons]
    cases hfs : frameStatus p.2 with
    | none => simpa [hfs] using ih o a
    | some s => simpa [hfs] using ih (some s) a

/-- The agent status after a whole sequence is the running fold of
dictated statuses. -/
theorem processAll_agentStatus (l : List (Fresh × Inbound)) :
    ∀ st : SessionStore,
      (processAll st l).agentStatus =
        l.foldl (fun a p => (frameStatus p.2).getD a) st.agentStatus := by
  induction l with
  | nil => intro st; rfl
  | cons p l ih =>
    intro st
    simp only [processAll, List.foldl_cons] at ih ⊢
    rw [ih, onMessageEvent_agentStatus]

/-- Neutral frames (malformed, pong, unrecognized type) leave the whole
store untouched. -/
theorem onMessageEvent_neutral (fresh : Fresh) (st : SessionStore) (e : Inbound)
    (h : isNeutralFrame e = true) : onMessageEvent fresh st e = st := by
  cases e with
  | malformed => rfl
  | frame m =>
    have h' := of_decide_eq_true h
    rcases h' with hp | hn
    · simp [onMessageEvent, handleMessage, hp]
    · have h1 : m.type ≠ "pong" := fun c => hn (by simp [recognizedTypes, c])
      have h2 : m.type ≠ "agent_response_start" := fun c => hn (by simp [recognizedTypes, c])
      have h3 : m.type ≠ "agent_response_chunk" := fun c => hn (by simp [recognizedTypes, c])
      have h4 : m.type ≠ "agent_response_end" := fun c => hn (by simp [recognizedTypes, c])
      have h5 : m.type ≠ "code_execution" := fun c => hn (by simp [recognizedTypes, c])
      have h6 : m.type ≠ "code_result" := fun c => hn (by simp [recognizedTypes, c])
      have h7 : m.type ≠ "file_change" := fun c => hn (by simp [recognizedTypes, c])
      have h8 : m.type ≠ "agent_error" := fun c => hn (by simp [recognizedTypes, c])
      have h9 : m.type ≠ "error" := fun c => hn (by simp [recognizedTypes, c])
      simp [onMessageEvent, handleMessage, h1, h2, h3, h4, h5, h6, h7, h8, h9]

/-- On an `agent_response_end` frame the dispatcher sets the status to
idle, finalizes a message exactly when `full_response` is truthy, and
clears the buffer. -/
theorem handleMessage_end (fresh : Fresh) (st : SessionStore) (m : WSMessage)
    (hty : m.type = "agent_response_end") :
    handleMessage fresh st m =
      clearCurrentResponse
        (if truthyStr m.full_response then
           addMessage (assistantMessageOf fresh m) (setAgentStatus .idle st)
         else setAgentStatus .idle st) := by
  simp [handleMessage, hty]

/-- Chunk frames only grow the streaming buffer: conversations and the
current-conversation pointer are untouched. -/
theorem onMessageEvent_chunk (fresh : Fresh) (st : SessionStore) (e : Inbound)
    (h : isChunkFrame e = true) :
    (onMessageEvent fresh st e).conversations = st.conversations ∧
    (onMessageEvent fresh st e).currentConversation = st.currentConversation := by
  cases e with
  | malformed => exact ⟨rfl, rfl⟩
  | frame m =>
    have hty : m.type = "agent_response_chunk" := of_decide_eq_true h
    cases hc : truthyStr m.content with
    | true => simp [onMessageEvent, handleMessage, hty, hc, addToCurrentResponse]
    | false => simp [onMessageEvent, handleMessage, hty, hc]

/-- A sequence of chunk frames leaves conversations and the
current-conversation pointer unchanged. -/
theorem processAll_chunks (l : List (Fresh × Inbound))
    (h : ∀ p ∈ l, isChunkFrame p.2 = true) :
    ∀ st : SessionStore,
      (processAll st l).conversations = st.conversations ∧
      (processAll st l).currentConversation = st.currentConversation := by
  induction l with
  | nil => intro st; exact ⟨rfl, rfl⟩
  | cons p l ih =>
    intro st
    have hp := h p (by simp)
    have hl : ∀ q ∈ l, isChunkFrame q.2 = true := fun q hq => h q (by simp [hq])
    have step := onMessageEvent_chunk p.1 st p.2 hp
    have rest := ih hl (onMessageEvent p.1 st p.2)
    simp only [processAll, List.foldl_cons] at rest ⊢
    exact ⟨rest.1.trans step.1, rest.2.trans step.2⟩

/-! ## Claim theorems -/

/-- C1 (counterexample).  The claim says that after chunks
`"Hel"`, `"lo, "`, `"world"` an `agent_response_end` frame with no
full-response override finalizes exactly one assistant Message with
content `"Hello, world"`.  On the code it finalizes none: the
`agent_response_end` branch only calls `addMessage` when
`full_response` is truthy, so the message count stays 0 and the
current conversation keeps its empty message list. -/
theorem streaming_roundtrip_without_override_cex :
    msgCountAll storeW = 0 ∧
    msgCountAll (processAll storeW seqNoOverride) = 0 ∧
    (processAll storeW seqNoOverride).currentConversation = some convW ∧
    (processAll storeW seqNoOverride).currentResponse = "" := by decide

/-- C1 (amended).  Processing any sequence of chunk frames followed by
an `agent_response_end` frame whose `full_response` is absent (or empty,
which the code treats as absent) finalizes no Message at all: every
conversation and the current-conversation pointer are unchanged, the
streaming buffer is left empty, the agent status is idle, and no error
is raised (processing is a total function). -/
theorem end_without_override_finalizes_nothing
    (st : SessionStore) (l : List (Fresh × Inbound)) (fresh : Fresh) (m : WSMessage)
    (hl : ∀ p ∈ l, isChunkFrame p.2 = true)
    (hty : m.type = "agent_response_end")
    (hov : truthyStr m.full_response = false) :
    (processAll st (l ++ [(fresh, .frame m)])).conversations = st.conversations ∧
    (processAll st (l ++ [(fresh, .frame m)])).currentConversation = st.currentConversation ∧
    (processAll st (l ++ [(fresh, .frame m)])).currentResponse = "" ∧
    (processAll st (l ++ [(fresh, .frame m)])).agentStatus = .idle := by
  have hsplit : processAll st (l ++ [(fresh, .frame m)]) =
      handleMessage fresh (processAll st l) m := by
    simp [processAll, List.foldl_append, onMessageEvent]
  have hend := handleMessage_end fresh (processAll st l) m hty
  simp only [hov, Bool.false_eq_true, if_false] at hend
  have hch := processAll_chunks l hl st
  rw [hsplit, hend]
  simp [clearCurrentResponse, setAgentStatus, hch.1, hch.2]

/-- C1 (witness for the amended theorem): the round-trip chunks with the
no-override end frame, on the fixture store. -/
theorem end_without_override_finalizes_nothing_witness :
    (processAll storeW (chunkList ++ [(freshW, .frame endMsgNoOverride)])).conversations =
      storeW.conversations ∧
    (processAll storeW (chunkList ++ [(freshW, .frame endMsgNoOverride)])).currentResponse =
      "" :=
  ⟨(end_without_override_finalizes_nothing storeW chunkList freshW endMsgNoOverride
      (by decide) rfl rfl).1,
   (end_without_override_finalizes_nothing storeW chunkList freshW endMsgNoOverride
      (by decide) rfl rfl).2.2.1⟩

/-- C6: for every sequence of inbound frames the agent activity status
after processing equals the one dictated by the last state-transitioning
frame of the sequence (the initial status when there is none), and every
neutral frame — malformed, `pong`, or an unrecognized `type` — leaves
the entire store unchanged.  Both parts are about total functions, so
no frame can throw. -/
theorem agentStatus_dictated_by_last_transition :
    (∀ (st : SessionStore) (l : List (Fresh × Inbound)),
        (processAll st l).agentStatus = (lastDictatedStatus l).getD st.agentStatus) ∧
    (∀ (fresh : Fresh) (st : SessionStore) (e : Inbound),
        isNeutralFrame e = true → onMessageEvent fresh st e = st) := by
  constructor
  · intro st l
    have h1 := processAll_agentStatus l st
    have h2 := foldl_status_bridge l none st.agentStatus
    rw [h1]
    simpa [lastDictatedStatus] using h2
  · exact onMessageEvent_neutral

/-- C6 (witness): the fixture sequence ends in `agent_response_end`, so
the final status is idle; a pong frame leaves the fixture store
untouched. -/
theorem agentStatus_dictated_by_last_transition_witness :
    (processAll storeW seqNoOverride).agentStatus =
      (lastDictatedStatus seqNoOverride).getD storeW.agentStatus ∧
    onMessageEvent freshW storeW pongFrame = storeW :=
  ⟨agentStatus_dictated_by_last_transition.1 storeW seqNoOverride,
   agentStatus_dictated_by_last_transition.2 freshW storeW pongFrame (by decide)⟩

/-- C7 (counterexample).  The claim says an `agent_response_end` frame
carrying a full-response override finalizes a Message whose content
equals the override.  With the override `""` the code treats the field
as absent (JS truthiness) and finalizes nothing at all. -/
theorem empty_string_override_cex :
    msgCountAll (processAll storeW seqEmptyOverride) = 0 ∧
    (processAll storeW seqEmptyOverride).currentConversation = some convW ∧
    (processAll storeW seqEmptyOverride).currentResponse = "" := by decide

/-- C7 (amended).  When an `agent_response_end` frame carries a
nonempty full-response override, the finalized assistant Message's
content equals the override exactly — independent of whatever chunks
were accumulated in the buffer — it is appended to every conversation
matching the frame's conversation id, and the streaming buffer is
cleared afterwards. -/
theorem nonempty_override_takes_precedence
    (st : SessionStore) (fresh : Fresh) (m : WSMessage) (s : String)
    (hty : m.type = "agent_response_end")
    (hov : m.full_response = some s) (hs : s ≠ "") :
    (assistantMessageOf fresh m).content = s ∧
    (assistantMessageOf fresh m).role = .assistant ∧
    (handleMessage fresh st m).currentResponse = "" ∧
    (handleMessage fresh st m).agentStatus = .idle ∧
    (handleMessage fresh st m).conversations =
      st.conversations.map (fun p => (p.1, p.2.map fun c =>
        if c.id = m.conversation_id.getD "" then
          { c with messages := c.messages ++ [assistantMessageOf fresh m] }
        else c)) := by
  have htr : truthyStr m.full_response = true := by simp [truthyStr, hov, hs]
  have hend := handleMessage_end fresh st m hty
  simp only [htr, if_true] at hend
  refine ⟨by simp [assistantMessageOf, hov], rfl, ?_, ?_, ?_⟩
  · rw [hend]; rfl
  · rw [hend]; simp [clearCurrentResponse, addMessage, setAgentStatus]
  · rw [hend]
    simp [clearCurrentResponse, addMessage, setAgentStatus, assistantMessageOf]

/-- C7 (witness for the amended theorem): the `"Goodbye"` override of
the spec's example. -/
theorem nonempty_override_takes_precedence_witness :
    (assistantMessageOf freshW endMsgOverride).content = "Goodbye" ∧
    (handleMessage freshW storeW endMsgOverride).currentResponse = "" :=
  ⟨(nonempty_override_takes_precedence storeW freshW endMsgOverride "Goodbye"
      rfl rfl (by decide)).1,
   (nonempty_override_takes_precedence storeW freshW endMsgOverride "Goodbye"
      rfl rfl (by decide)).2.2.1⟩

/-- C2 (counterexample).  Calling `connect` twice for the same session
(with the first transport opened in between) leaves TWO open
transports, not one: `connect` only repoints `wsRef` and never closes
the previous transport. -/
theorem double_connect_two_open_transports_cex :
    openTransportCount (connect true (onOpen (connect true sysW))) = 2 ∧
    (connect true (onOpen (connect true sysW))).wsRef = some 1 := by decide

/-- C2 (amended).  `connect` never tears down an existing transport:
every previously created transport is left exactly as it was (the old
list is an unchanged prefix of the new one), and a successful second
call merely appends a fresh open transport and repoints `wsRef` at it,
so two live transports for the same session can coexist and both still
feed inbound events to the dispatcher. -/
theorem connect_never_tears_down (st : SystemState) (ok : Bool) :
    ((connect ok st).transports.take st.transports.length = st.transports) ∧
    (∀ sid, st.sessionId = some sid → ok = true →
      (connect ok st).transports = st.transports ++ [{ id := st.nextId }] ∧
      (connect ok st).wsRef = some st.nextId) := by
  constructor
  · cases h : st.sessionId with
    | none => simp [connect, h, List.take_length]
    | some sid =>
        cases ok with
        | true => simp [connect, h, List.take_left]
        | false => simp [connect, h, List.take_length]
  · intro sid hsid hok
    subst hok
    simp [connect, hsid]

/-- C2 (witness for the amended theorem). -/
theorem connect_never_tears_down_witness :
    (connect true sysW).transports = sysW.transports ++ [{ id := sysW.nextId }] ∧
    (connect true sysW).wsRef = some sysW.nextId :=
  (connect_never_tears_down sysW true).2 "s1" rfl rfl

/-- C3: on a non-graceful closure with the attempt counter below the
ceiling of 5 a reconnect is scheduled after
`min (1000 * 2 ^ attempts) 30000` ms and the firing timer increments
the counter; at or above the ceiling no further attempt is scheduled
and the session stays disconnected; a successful open resets the
counter to 0. -/
theorem reconnect_backoff_policy (st : SystemState) (tid code : Nat) :
    (code ≠ 1000 → st.attempts < maxReconnectAttempts →
      (closeEvent tid code st).reconnectTimer =
        some (min (1000 * 2 ^ st.attempts) 30000)) ∧
    (st.attempts ≥ maxReconnectAttempts →
      (closeEvent tid code st).reconnectTimer = st.reconnectTimer ∧
      (closeEvent tid code st).connectionStatus = false) ∧
    (∀ ok, st.reconnectTimer ≠ none → (timerFire ok st).attempts = st.attempts + 1) ∧
    (onOpen st).attempts = 0 := by
  refine ⟨?_, ?_, ?_, rfl⟩
  · intro hc ha
    simp [closeEvent, hc, ha]
  · intro ha
    have hni : ¬(code ≠ 1000 ∧ st.attempts < maxReconnectAttempts) := by
      rintro ⟨-, hlt⟩
      omega
    exact ⟨by simp [closeEvent, hni], rfl⟩
  · intro ok hne
    cases ht : st.reconnectTimer with
    | none => exact absurd ht hne
    | some d =>
      cases hs : st.sessionId with
      | none => simp [timerFire, ht, connect, hs]
      | some sid => cases ok <;> simp [timerFire, ht, connect, hs]

/-- C3 (witness): from a fresh state the first failure schedules a
1000 ms reconnect; at 5 prior attempts nothing further is scheduled;
an open resets the counter. -/
theorem reconnect_backoff_policy_witness :
    (closeEvent 0 1006 sysW).reconnectTimer = some 1000 ∧
    (closeEvent 0 1006 { sysW with attempts := 5 }).reconnectTimer = none ∧
    (onOpen sysW).attempts = 0 :=
  ⟨(reconnect_backoff_policy sysW 0 1006).1 (by decide) (by decide),
   ((reconnect_backoff_policy { sysW with attempts := 5 } 0 1006).2.1 (by decide)).1,
   (reconnect_backoff_policy sysW 0 1006).2.2.2⟩

/-- C4 (counterexample).  The claim says a transport-construction
failure is handled identically to a non-graceful closure, scheduling a
reconnect per the backoff policy.  From the same fresh state a
non-graceful closure schedules a 1000 ms reconnect, but a construction
failure schedules nothing. -/
theorem ctor_throw_cex :
    (connect false sysW).reconnectTimer = none ∧
    sysW.attempts = 0 ∧
    (closeEvent 0 1006 sysW).reconnectTimer = some 1000 := by decide

/-- C4 (amended).  If construction of the transport throws, the error
is caught and never raised to the caller of `connect` (the function is
total): the connection status is set to false, but — unlike a
non-graceful closure — no reconnect is scheduled and nothing else
changes. -/
theorem ctor_throw_caught_no_backoff
    (st : SystemState) (sid : String) (h : st.sessionId = some sid) :
    (connect false st).connectionStatus = false ∧
    (connect false st).reconnectTimer = st.reconnectTimer ∧
    (connect false st).transports = st.transports ∧
    (connect false st).attempts = st.attempts ∧
    (connect false st).wsRef = st.wsRef ∧
    (connect false st).store = st.store := by
  simp [connect, h]

/-- C4 (witness for the amended theorem). -/
theorem ctor_throw_caught_no_backoff_witness :
    (connect false sysW).connectionStatus = false ∧
    (connect false sysW).reconnectTimer = none :=
  ⟨(ctor_throw_caught_no_backoff sysW "s1" rfl).1,
   (ctor_throw_caught_no_backoff sysW "s1" rfl).2.1⟩

/-- C5: an explicit `disconnect` never schedules a reconnect, for any
prior attempt count: it cancels the pending reconnect timer, closes the
current transport with the graceful code 1000, and a closure event with
code 1000 never schedules a reconnect — in particular, after
`disconnect` and its induced 1000-closure no timer is pending. -/
theorem graceful_disconnect_never_reconnects (st : SystemState) (tid : Nat) :
    (disconnect st).reconnectTimer = none ∧
    (∀ t, st.wsRef = some t →
      (disconnect st).transports = markClosed t 1000 st.transports) ∧
    (closeEvent tid 1000 st).reconnectTimer = st.reconnectTimer ∧
    (closeEvent tid 1000 (disconnect st)).reconnectTimer = none := by
  have h1 : (disconnect st).reconnectTimer = none := by
    cases h : st.wsRef <;> simp [disconnect, h]
  refine ⟨h1, ?_, ?_, ?_⟩
  · intro t ht
    simp [disconnect, ht]
  · simp [closeEvent]
  · simp [closeEvent, h1]

/-- C5 (witness): disconnecting a freshly opened connection. -/
theorem graceful_disconnect_never_reconnects_witness :
    (disconnect (onOpen (connect true sysW))).reconnectTimer = none ∧
    (disconnect (onOpen (connect true sysW))).transports =
      markClosed 0 1000 (onOpen (connect true sysW)).transports :=
  ⟨(graceful_disconnect_never_reconnects (onOpen (connect true sysW)) 0).1,
   (graceful_disconnect_never_reconnects (onOpen (connect true sysW)) 0).2.1 0 rfl⟩

/-- C8: on every transport closure, graceful or not, the connection
state exposed to the rest of the system becomes disconnected
(`isConnected = false`, `wsConnection = null`) and the agent activity
state is forced back to idle. -/
theorem close_forces_disconnected_idle (st : SystemState) (tid code : Nat) :
    (closeEvent tid code st).connectionStatus = false ∧
    (closeEvent tid code st).store.wsConnection = none ∧
    (closeEvent tid code st).store.agentStatus = .idle :=
  ⟨rfl, rfl, rfl⟩

/-- C9: `addMessage` appends the message at the end of each
conversation whose id equals the message's `conversation_id`
(including the current-conversation pointer when it matches),
preserving every previously stored message in place, and leaves every
non-matching conversation and every other store field unchanged. -/
theorem addMessage_spec (st : SessionStore) (m : Message) :
    ((addMessage m st).sessions = st.sessions ∧
     (addMessage m st).currentSession = st.currentSession ∧
     (addMessage m st).agentStatus = st.agentStatus ∧
     (addMessage m st).currentResponse = st.currentResponse ∧
     (addMessage m st).wsConnection = st.wsConnection ∧
     (addMessage m st).isLoading = st.isLoading) ∧
    List.Forall₂
      (fun p q => p.1 = q.1 ∧
        List.Forall₂
          (fun c d =>
            (c.id = m.conversation_id → d = { c with messages := c.messages ++ [m] }) ∧
            (c.id ≠ m.conversation_id → d = c))
          p.2 q.2)
      st.conversations (addMessage m st).conversations ∧
    (addMessage m st).currentConversation =
      st.currentConversation.map fun cc =>
        if cc.id = m.conversation_id then { cc with messages := cc.messages ++ [m] }
        else cc := by
  refine ⟨⟨rfl, rfl, rfl, rfl, rfl, rfl⟩, ?_, ?_⟩
  · apply forall2_self_map
    intro p hp
    refine ⟨rfl, ?_⟩
    apply forall2_self_map
    intro c hc
    constructor
    · intro hid
      simp [hid]
    · intro hid
      simp [hid]
  · rcases h : st.currentConversation with _ | cc
    · simp [addMessage, h]
    · by_cases hid : cc.id = m.conversation_id <;> simp [addMessage, h, hid]

/-- C9 (witness): adding a user message to the fixture store. -/
theorem addMessage_spec_witness :
    (addMessage msgW storeW).agentStatus = storeW.agentStatus ∧
    (addMessage msgW storeW).currentConversation =
      (storeW.currentConversation.map fun cc =>
        if cc.id = msgW.conversation_id then
          { cc with messages := cc.messages ++ [msgW] }
        else cc) :=
  ⟨(addMessage_spec storeW msgW).1.2.2.1, (addMessage_spec storeW msgW).2.2⟩

/-- C10: when an `agent_response_end` frame carries a (truthy)
full-response payload but its conversation id is absent or matches no
conversation held by the store, the finalized assistant Message is
silently dropped: it is constructed with the empty-or-unknown
conversation id, and the store's conversations and current-conversation
pointer are unchanged, with no error and no notice (the handler is a
total function). -/
theorem unrouted_final_message_dropped
    (st : SessionStore) (fresh : Fresh) (m : WSMessage)
    (hty : m.type = "agent_response_end")
    (hfr : truthyStr m.full_response = true)
    (hconvs : ∀ p ∈ st.conversations, ∀ c ∈ p.2, c.id ≠ m.conversation_id.getD "")
    (hcur : st.currentConversation.elim True
      fun cc => cc.id ≠ m.conversation_id.getD "") :
    (assistantMessageOf fresh m).conversation_id = m.conversation_id.getD "" ∧
    (handleMessage fresh st m).conversations = st.conversations ∧
    (handleMessage fresh st m).currentConversation = st.currentConversation := by
  have hend := handleMessage_end fresh st m hty
  simp only [hfr, if_true] at hend
  refine ⟨rfl, ?_, ?_⟩
  · rw [hend]
    show st.conversations.map (fun p =>
        (p.1, p.2.map fun c =>
          if c.id = (assistantMessageOf fresh m).conversation_id then
            { c with messages := c.messages ++ [assistantMessageOf fresh m] }
          else c)) = st.conversations
    apply map_eq_self_of
    intro p hp
    obtain ⟨a, b⟩ := p
    have hb : b.map (fun c =>
        if c.id = (assistantMessageOf fresh m).conversation_id then
          { c with messages := c.messages ++ [assistantMessageOf fresh m] }
        else c) = b := by
      apply map_eq_self_of
      intro c hc
      exact if_neg (hconvs (a, b) hp c hc)
    simpa using hb
  · rw [hend]
    rcases h : st.currentConversation with _ | cc
    · simp [addMessage, clearCurrentResponse, setAgentStatus, h]
    · rw [h] at hcur
      simp only [Option.elim] at hcur
      simp [addMessage, clearCurrentResponse, setAgentStatus, h,
        assistantMessageOf, hcur]

/-- C10 (witness): an end frame with payload `"Hello"` and no
conversation id, against the fixture store. -/
theorem unrouted_final_message_dropped_witness :
    (assistantMessageOf freshW endMsgUnrouted).conversation_id = "" ∧
    (handleMessage freshW storeW endMsgUnrouted).conversations = storeW.conversations :=
  ⟨(unrouted_final_message_dropped storeW freshW endMsgUnrouted rfl rfl
      (by decide) (by simp [storeW, convW, endMsgUnrouted])).1,
   (unrouted_final_message_dropped storeW freshW endMsgUnrouted rfl rfl
      (by decide) (by simp [storeW, convW, endMsgUnrouted])).2.1⟩

end OpenReplica
